import Mathlib

/-!
Verification development for the SkyServe controller
(`sky/serve/controller.py`, class `SkyServeController`).

The controller is a thin HTTP facade over two collaborators: an
`InfraProvider` (the fleet store) and an optional `RequestRateAutoscaler`.
We embed each endpoint as a pure function from the controller's
configuration and the request payload to a response together with the
ordered list of mutating collaborator calls it performs (its trace).
Fallible externals (JSON parsing of the request body, loading the service
spec from the task YAML file) are passed in as `Option`-valued inputs.
-/

/-- The fields of `SkyServiceSpec` that the controller module reads
(`service_spec.auto_restart`, `.min_replicas`, `.max_replicas`,
`.qps_upper_threshold`, `.qps_lower_threshold`).  The QPS thresholds are
optional in the source (a service may omit them), hence `Option`. -/
structure ServiceSpec where
  auto_restart : Bool
  min_replicas : Nat
  max_replicas : Nat
  qps_upper_threshold : Option Int
  qps_lower_threshold : Option Int
  deriving DecidableEq

/-- The argument record of `autoscalers.RequestRateAutoscaler(...)` as
constructed in the controller's startup wiring (controller.py lines
171-180). -/
structure RequestRateAutoscaler where
  auto_restart : Bool
  frequency : Nat
  min_nodes : Nat
  max_nodes : Nat
  upper_threshold : Option Int
  lower_threshold : Option Int
  cooldown : Nat
  query_interval : Nat
  deriving DecidableEq

/-- Startup wiring of the autoscaler (controller.py lines 171-180):
`RequestRateAutoscaler(_infra_provider, auto_restart=service_spec.auto_restart,
frequency=20, min_nodes=service_spec.min_replicas,
max_nodes=service_spec.max_replicas,
upper_threshold=service_spec.qps_upper_threshold,
lower_threshold=service_spec.qps_lower_threshold, cooldown=60,
query_interval=60)`. -/
def mkRequestRateAutoscaler (s : ServiceSpec) : RequestRateAutoscaler where
  auto_restart := s.auto_restart
  frequency := 20
  min_nodes := s.min_replicas
  max_nodes := s.max_replicas
  upper_threshold := s.qps_upper_threshold
  lower_threshold := s.qps_lower_threshold
  cooldown := 60
  query_interval := 60

/-- `RequestRateAutoscaler.get_query_interval` (read-only accessor used by
the `get_autoscaler_query_interval` endpoint). -/
def RequestRateAutoscaler.get_query_interval (a : RequestRateAutoscaler) : Nat :=
  a.query_interval

/-- A mutating call the controller issues to a collaborator.  The first
four target the infra provider (fleet store), the last three the
autoscaler. -/
inductive Event where
  | set_num_requests (n : Int)
  | set_separate_replicas (b : Bool)
  | update_version (v : Nat) (s : ServiceSpec)
  | autoscaler_update_spec (s : ServiceSpec)
  | autoscaler_terminate
  | infra_terminate
  deriving DecidableEq

/-- A JSON value as returned in a response field (enough structure to
distinguish a number, a string and `None`/null). -/
inductive JsonVal where
  | num (n : Nat)
  | str (s : String)
  | null
  deriving DecidableEq

/-- Endpoint `POST /controller/update_num_requests` (controller.py lines
56-65).  `payload` is `some n` when the request body parses as JSON and
carries the key `num_requests` with value `n`, `none` otherwise.  The
source forwards `n` with `self.autoscaler.set_num_requests(n)` exactly
when `isinstance(self.autoscaler, RequestRateAutoscaler)`; since
`RequestRateAutoscaler` is the only autoscaler the controller is ever
wired with, this is presence of the autoscaler.  Returns the response
message and the trace of mutating collaborator calls. -/
def update_num_requests (autoscaler : Option RequestRateAutoscaler)
    (payload : Option Int) : Except String String × List Event :=
  match payload with
  | none => (Except.error "Invalid request body", [])
  | some n =>
    match autoscaler with
    | some _ => (Except.ok "Success", [Event.set_num_requests n])
    | none => (Except.ok "Success", [])

/-- Endpoint `GET /controller/get_autoscaler_query_interval`
(controller.py lines 67-71): the value at response key `query_interval`.
With a `RequestRateAutoscaler` it is `self.autoscaler.get_query_interval()`;
otherwise the source returns `None` (JSON null). -/
def get_autoscaler_query_interval
    (autoscaler : Option RequestRateAutoscaler) : JsonVal :=
  match autoscaler with
  | some a => JsonVal.num a.get_query_interval
  | none => JsonVal.null

/-- The request body of `POST /controller/update_service` after JSON
parsing: the keys `version` and `separate_replicas`. -/
structure UpdatePayload where
  version : Nat
  separate_replicas : Bool
  deriving DecidableEq

/-- Endpoint `POST /controller/update_service` (controller.py lines
91-107), the rollout operation.  Control flow of the source:
1. `if self.autoscaler is None: raise ValueError(...)` — before anything
   else;
2. parse the request body and read `version` and `separate_replicas`
   (`payload = none` models any failure here);
3. `self.infra_provider.set_separate_replicas(separate_replicas)`;
4. build the task YAML name for `version` and load
   `SkyServiceSpec.from_yaml` (`from_yaml version = none` models a
   missing or invalid YAML file, which raises);
5. `self.infra_provider.update_version(version, service)`;
6. `self.autoscaler.update_spec(service)`;
7. return `Success`.
The trace records the mutating collaborator calls in order. -/
def update_service (autoscaler : Option RequestRateAutoscaler)
    (payload : Option UpdatePayload)
    (from_yaml : Nat → Option ServiceSpec) : Except String String × List Event :=
  match autoscaler with
  | none => (Except.error "Update service is not allowed without autoscaler.", [])
  | some _ =>
    match payload with
    | none => (Except.error "Invalid request body", [])
    | some p =>
      match from_yaml p.version with
      | none =>
        (Except.error "Failed to load service spec",
         [Event.set_separate_replicas p.separate_replicas])
      | some service =>
        (Except.ok "Success",
         [Event.set_separate_replicas p.separate_replicas,
          Event.update_version p.version service,
          Event.autoscaler_update_spec service])

/-- Endpoint `POST /controller/terminate` (controller.py lines 109-117).
The source deletes the request object unread (`del request`), stops the
autoscaler when one is present, then calls `infra_provider.terminate()`
and returns its message.  `drain_msg` is the value the infra provider's
drain returns. -/
def terminate (autoscaler : Option RequestRateAutoscaler)
    (_request : String) (drain_msg : String) : String × List Event :=
  match autoscaler with
  | some _ => (drain_msg, [Event.autoscaler_terminate, Event.infra_terminate])
  | none => (drain_msg, [Event.infra_terminate])

/-- Replica lifecycle status (spec section 3). -/
inductive ReplicaStatus where
  | Provisioning
  | Ready
  | Unready
  | Restarting
  | Terminating
  | Terminated
  deriving DecidableEq

/-- The fleet store's replica table, reduced to the statuses of its
replicas (all that the drain operation observes and mutates). -/
structure FleetStore where
  replicas : List ReplicaStatus
  deriving DecidableEq

/-- Modelled from the spec: `infra_provider.terminate` — the
`infra_providers` module is not under src/.  Spec section 4.1
`terminateAll`: issues Terminating to every non-terminated replica and
returns once all records are Terminated (stragglers are force-marked),
with a status message.  The model marks every replica Terminated, returns
the success message, and additionally reports how many deprovision
actions were issued (the replicas that were not already Terminated). -/
def FleetStore.terminateAll (fs : FleetStore) : FleetStore × String × Nat :=
  (⟨fs.replicas.map fun _ => ReplicaStatus.Terminated⟩,
   "Success",
   (fs.replicas.filter fun r => r ≠ ReplicaStatus.Terminated).length)

/-- The autoscaler's background loop, reduced to whether it is running. -/
structure AutoscalerLoop where
  running : Bool
  deriving DecidableEq

/-- Modelled from the spec: `autoscaler.terminate` — the `autoscalers`
module is not under src/.  Spec section 4.3: stops the loop; subsequent
ticks do not run. -/
def AutoscalerLoop.stop (_a : AutoscalerLoop) : AutoscalerLoop :=
  ⟨false⟩

/-- The controller state the terminate endpoint acts on: the optional
autoscaler loop and the fleet store. -/
structure ControllerState where
  autoscaler : Option AutoscalerLoop
  store : FleetStore
  deriving DecidableEq

/-- The terminate endpoint (controller.py lines 109-117) composed with
the spec-modelled collaborator semantics: stop the autoscaler when
present, drain the fleet store, return the drain's message and the
number of deprovision actions issued. -/
def terminate_state (st : ControllerState) : ControllerState × String × Nat :=
  let a := st.autoscaler.map AutoscalerLoop.stop
  let r := st.store.terminateAll
  (⟨a, r.1⟩, r.2.1, r.2.2)

mutual
/-- A value transported by the status endpoint (the collaborator results
`get_replica_info(verbose=True)`, `get_uptime()`, `get_latest_version()`
are arbitrary picklable Python values; the `infra_providers` module is
not under src/, so their exact shapes are unknown — integers, booleans
and nested lists stand in for them). -/
inductive PyVal where
  | int (n : Int)
  | bool (b : Bool)
  | list (l : PyList)
/-- A list of transported values. -/
inductive PyList where
  | nil
  | cons (hd : PyVal) (tl : PyList)
end

/-- Length of a `PyList`. -/
def pyListLength : PyList → Nat
  | PyList.nil => 0
  | PyList.cons _ tl => pyListLength tl + 1

mutual
/-- Modelled from the spec: `pickle.dumps` — serialization is an external
collaborator (spec section 1 places the transport/serialization layer
out of scope, section 6 calls the payload "an opaque serialized
snapshot").  Modelled as a concrete injective self-delimiting byte
encoding of transported values. -/
def pickle_dumps : PyVal → List Nat
  | PyVal.int n => [0, if n < 0 then 1 else 0, n.natAbs]
  | PyVal.bool b => [1, if b then 1 else 0]
  | PyVal.list l => 2 :: pyListLength l :: pickle_dumps_list l
/-- Concatenated encodings of the elements of a list. -/
def pickle_dumps_list : PyList → List Nat
  | PyList.nil => []
  | PyList.cons hd tl => pickle_dumps hd ++ pickle_dumps_list tl
end

mutual
/-- Fuel-indexed decoder for `pickle_dumps`: returns the decoded value
and the unconsumed remainder of the input. -/
def pickle_parse : Nat → List Nat → Option (PyVal × List Nat)
  | _ + 1, 0 :: s :: m :: rest =>
    some (PyVal.int (if s = 1 then -(m : Int) else (m : Int)), rest)
  | _ + 1, 1 :: b :: rest => some (PyVal.bool (b = 1), rest)
  | f + 1, 2 :: len :: rest =>
    match pickle_parse_list f len rest with
    | some (l, rest1) => some (PyVal.list l, rest1)
    | none => none
  | _, _ => none
termination_by f _input => (f, 0)
/-- Decode exactly `n` consecutive encoded values. -/
def pickle_parse_list : Nat → Nat → List Nat → Option (PyList × List Nat)
  | _, 0, rest => some (PyList.nil, rest)
  | f, n + 1, input =>
    match pickle_parse f input with
    | some (v, rest1) =>
      match pickle_parse_list f n rest1 with
      | some (vs, rest2) => some (PyList.cons v vs, rest2)
      | none => none
    | none => none
termination_by f n _input => (f, n + 1)
end

mutual
/-- Nesting depth of a transported value (the fuel the decoder needs). -/
def pyDepth : PyVal → Nat
  | PyVal.int _ => 1
  | PyVal.bool _ => 1
  | PyVal.list l => pyListDepth l + 1
/-- Maximal nesting depth of the elements of a list. -/
def pyListDepth : PyList → Nat
  | PyList.nil => 0
  | PyList.cons hd tl => max (pyDepth hd) (pyListDepth tl)
end

/-- Modelled from the spec: `pickle.loads` — the inverse of the external
serializer.  Decodes a complete encoding (fuel bounded by the input
length, which dominates the nesting depth). -/
def pickle_loads (bs : List Nat) : Option PyVal :=
  match pickle_parse bs.length bs with
  | some (v, []) => some v
  | _ => none

/-- Modelled from the spec: `base64.b64encode(...).decode('utf-8')` — a
reversible transport armoring of the serialized byte string (external
collaborator); modelled as an injective length-prefixed map. -/
def b64encode (bs : List Nat) : List Nat :=
  bs.length :: bs

/-- Modelled from the spec: base64 decoding, the inverse of `b64encode`. -/
def b64decode : List Nat → Option (List Nat)
  | [] => none
  | len :: rest => if rest.length = len then some rest else none

/-- The values the three collaborator getters return at the time of a
`get_latest_info` call: `infra_provider.get_replica_info(verbose=True)`,
`infra_provider.get_uptime()`, `infra_provider.get_latest_version()`. -/
structure InfraSnapshot where
  replica_info : PyVal
  uptime : PyVal
  version : PyVal

/-- Endpoint `GET /controller/get_latest_info` (controller.py lines
77-89): builds the dict with keys `replica_info`, `uptime`, `version`
from the collaborator getters, then replaces every value `v` with
`base64.b64encode(pickle.dumps(v)).decode('utf-8')`. -/
def get_latest_info (infra : InfraSnapshot) : List (String × List Nat) :=
  ([("replica_info", infra.replica_info),
    ("uptime", infra.uptime),
    ("version", infra.version)]).map
    fun kv => (kv.1, b64encode (pickle_dumps kv.2))

/-- A concrete service specification, used to instantiate theorems. -/
def sampleSpec : ServiceSpec :=
  { auto_restart := true
    min_replicas := 1
    max_replicas := 5
    qps_upper_threshold := some 10
    qps_lower_threshold := some 2 }

/-- A second concrete service specification, distinct from `sampleSpec`. -/
def sampleSpecB : ServiceSpec :=
  { auto_restart := false
    min_replicas := 2
    max_replicas := 9
    qps_upper_threshold := some 30
    qps_lower_threshold := none }

/-- The autoscaler the startup wiring builds from `sampleSpec`. -/
def sampleAutoscaler : RequestRateAutoscaler :=
  mkRequestRateAutoscaler sampleSpec

/-- A concrete rollout request body. -/
def samplePayload : UpdatePayload :=
  { version := 2, separate_replicas := true }

/-- A spec loader for which every version's YAML file is missing. -/
def noYaml : Nat → Option ServiceSpec :=
  fun _ => none

/-- A spec loader that succeeds for every version. -/
def someYaml : Nat → Option ServiceSpec :=
  fun _ => some sampleSpecB

/-! ## Helper lemmas about the spec-modelled serializer -/

mutual
theorem pickle_parse_dumps :
    ∀ (v : PyVal) (rest : List Nat) (f : Nat), pyDepth v ≤ f →
      pickle_parse f (pickle_dumps v ++ rest) = some (v, rest)
  | PyVal.int n, rest, 0, h => by simp [pyDepth] at h
  | PyVal.int n, rest, f + 1, _ => by
    simp only [pickle_dumps, List.cons_append, List.nil_append, pickle_parse]
    rcases lt_or_ge n 0 with hn | hn
    · have h1 : ((n.natAbs : Int)) = -n := by
        rw [← Int.natAbs_neg, Int.natAbs_of_nonneg (by omega)]
      simp [hn, h1]
    · have hn2 : ¬ n < 0 := not_lt.mpr hn
      simp [hn2, Int.natAbs_of_nonneg hn]
  | PyVal.bool b, rest, 0, h => by simp [pyDepth] at h
  | PyVal.bool b, rest, f + 1, _ => by
    simp only [pickle_dumps, List.cons_append, List.nil_append, pickle_parse]
    cases b <;> simp
  | PyVal.list l, rest, 0, h => by simp [pyDepth] at h
  | PyVal.list l, rest, f + 1, h => by
    have hl : pyListDepth l ≤ f := by
      simp only [pyDepth] at h
      omega
    have e := pickle_parse_list_dumps l rest f hl
    simp only [pickle_dumps, List.cons_append, pickle_parse, e]
theorem pickle_parse_list_dumps :
    ∀ (l : PyList) (rest : List Nat) (f : Nat), pyListDepth l ≤ f →
      pickle_parse_list f (pyListLength l) (pickle_dumps_list l ++ rest) =
        some (l, rest)
  | PyList.nil, rest, f, _ => by
    simp [pickle_dumps_list, pyListLength, pickle_parse_list]
  | PyList.cons v vs, rest, f, h => by
    have h1 : pyDepth v ≤ f := le_trans (le_max_left _ _) (by simpa [pyListDepth] using h)
    have h2 : pyListDepth vs ≤ f := le_trans (le_max_right _ _) (by simpa [pyListDepth] using h)
    have e1 := pickle_parse_dumps v (pickle_dumps_list vs ++ rest) f h1
    have e2 := pickle_parse_list_dumps vs rest f h2
    simp only [pickle_dumps_list, pyListLength, List.append_assoc, pickle_parse_list, e1, e2]
end

mutual
theorem pyDepth_le_dumps_length :
    ∀ v : PyVal, pyDepth v ≤ (pickle_dumps v).length
  | PyVal.int n => by simp [pyDepth, pickle_dumps]
  | PyVal.bool b => by simp [pyDepth, pickle_dumps]
  | PyVal.list l => by
    have := pyListDepth_le_dumps_list_length l
    simp only [pyDepth, pickle_dumps, List.length_cons]
    omega
theorem pyListDepth_le_dumps_list_length :
    ∀ l : PyList, pyListDepth l ≤ (pickle_dumps_list l).length + 1
  | PyList.nil => by simp [pyListDepth, pickle_dumps_list]
  | PyList.cons v vs => by
    have h1 := pyDepth_le_dumps_length v
    have h2 := pyListDepth_le_dumps_list_length vs
    simp only [pyListDepth, pickle_dumps_list, List.length_append]
    rw [max_le_iff]
    omega
end

theorem pickle_loads_dumps (v : PyVal) :
    pickle_loads (pickle_dumps v) = some v := by
  have h := pickle_parse_dumps v [] (pickle_dumps v).length (pyDepth_le_dumps_length v)
  rw [List.append_nil] at h
  simp [pickle_loads, h]

theorem b64_pickle_roundtrip (v : PyVal) :
    (b64decode (b64encode (pickle_dumps v))).bind pickle_loads = some v := by
  simp [b64encode, b64decode, pickle_loads_dumps v]

/-! ## Helper lemmas about the spec-modelled drain -/

theorem filter_ne_terminated_map_const (l : List ReplicaStatus) :
    ((l.map fun _ => ReplicaStatus.Terminated).filter
      fun r => r ≠ ReplicaStatus.Terminated) = [] := by
  induction l with
  | nil => rfl
  | cons hd tl ih => simp [ih]

theorem map_const_terminated_idem (l : List ReplicaStatus) :
    ((l.map fun _ => ReplicaStatus.Terminated).map fun _ => ReplicaStatus.Terminated) =
      l.map fun _ => ReplicaStatus.Terminated := by
  simp [List.map_map, Function.comp]

/-! ## The claims -/

/-- Claim C1: a call to the rollout endpoint `update_service` with no
autoscaler configured is rejected with the configuration error
`Update service is not allowed without autoscaler.` and performs no
mutating collaborator call at all — in particular neither
`set_separate_replicas` nor `update_version` nor `update_spec` — for
every request body and every state of the service-spec files. -/
theorem update_service_requires_autoscaler (payload : Option UpdatePayload)
    (from_yaml : Nat → Option ServiceSpec) :
    update_service none payload from_yaml =
      (Except.error "Update service is not allowed without autoscaler.", []) :=
  rfl

/-- Claim C2, counterexample: with an autoscaler present, a well-formed
rollout body, and a missing service-spec YAML for the target version,
`update_service` surfaces an error to the caller after
`set_separate_replicas` has already been applied, while `update_version`
and `update_spec` were not: the call is not all-or-nothing. -/
theorem update_service_partial_mutation_cex :
    update_service (some sampleAutoscaler) (some samplePayload) noYaml =
      (Except.error "Failed to load service spec",
       [Event.set_separate_replicas true]) :=
  rfl

/-- Claim C2, amended: when `update_service` surfaces an error, either no
mutating collaborator call has happened (missing autoscaler or malformed
body), or — when loading the new version's service spec fails after the
flag was set — exactly `set_separate_replicas` has been applied;
`update_version` and `update_spec` are only ever applied together with it
on the all-success path. -/
theorem update_service_mutation_discipline
    (a : Option RequestRateAutoscaler) (payload : Option UpdatePayload)
    (from_yaml : Nat → Option ServiceSpec) :
    (∀ msg : String,
      (update_service a payload from_yaml).1 = Except.error msg →
        (update_service a payload from_yaml).2 = [] ∨
        ∃ b, (update_service a payload from_yaml).2 =
          [Event.set_separate_replicas b]) ∧
    (∀ r : String,
      (update_service a payload from_yaml).1 = Except.ok r →
        ∃ p s, payload = some p ∧ from_yaml p.version = some s ∧
          (update_service a payload from_yaml).2 =
            [Event.set_separate_replicas p.separate_replicas,
             Event.update_version p.version s,
             Event.autoscaler_update_spec s]) := by
  constructor
  · intro msg hmsg
    cases a with
    | none => exact Or.inl rfl
    | some x =>
      cases payload with
      | none => exact Or.inl rfl
      | some p =>
        cases hfy : from_yaml p.version with
        | none =>
          exact Or.inr ⟨p.separate_replicas, by simp [update_service, hfy]⟩
        | some s => simp [update_service, hfy] at hmsg
  · intro r hr
    cases a with
    | none => simp [update_service] at hr
    | some x =>
      cases payload with
      | none => simp [update_service] at hr
      | some p =>
        cases hfy : from_yaml p.version with
        | none => simp [update_service, hfy] at hr
        | some s => exact ⟨p, s, rfl, hfy, by simp [update_service, hfy]⟩

/-- Claim C2, witness of the amended theorem at a concrete input: an
autoscaler present, payload requesting version 2, and a failing
service-spec load. -/
theorem update_service_mutation_discipline_witness :
    (update_service (some sampleAutoscaler) (some samplePayload) noYaml).2 = [] ∨
    ∃ b, (update_service (some sampleAutoscaler) (some samplePayload) noYaml).2 =
      [Event.set_separate_replicas b] :=
  (update_service_mutation_discipline (some sampleAutoscaler)
    (some samplePayload) noYaml).1 "Failed to load service spec" rfl

/-- Claim C3: in every successful `update_service` call (autoscaler
present), the trace of mutating collaborator calls is exactly
`set_separate_replicas`, then `update_version`, then the autoscaler's
`update_spec`: the fleet store's rollout transition is recorded strictly
before the autoscaler's policy swap. -/
theorem update_service_rollout_order (a : RequestRateAutoscaler)
    (payload : Option UpdatePayload) (from_yaml : Nat → Option ServiceSpec)
    (r : String)
    (h : (update_service (some a) payload from_yaml).1 = Except.ok r) :
    ∃ p s, payload = some p ∧ from_yaml p.version = some s ∧
      (update_service (some a) payload from_yaml).2 =
        [Event.set_separate_replicas p.separate_replicas,
         Event.update_version p.version s,
         Event.autoscaler_update_spec s] := by
  cases payload with
  | none => simp [update_service] at h
  | some p =>
    cases hfy : from_yaml p.version with
    | none => simp [update_service, hfy] at h
    | some s => exact ⟨p, s, rfl, hfy, by simp [update_service, hfy]⟩

/-- Claim C3, witness at a concrete input: the sample autoscaler, a
payload requesting version 2, and a spec loader that succeeds. -/
theorem update_service_rollout_order_witness :
    ∃ p s, (some samplePayload : Option UpdatePayload) = some p ∧
      someYaml p.version = some s ∧
      (update_service (some sampleAutoscaler) (some samplePayload) someYaml).2 =
        [Event.set_separate_replicas p.separate_replicas,
         Event.update_version p.version s,
         Event.autoscaler_update_spec s] :=
  update_service_rollout_order sampleAutoscaler (some samplePayload) someYaml
    "Success" rfl

/-- Claim C4: a load report `update_num_requests` with a well-formed body
carrying count `n` forwards `n` to the autoscaler via `set_num_requests`
when one is present, and with autoscaling disabled performs no
collaborator call at all — and in both cases returns the `Success`
acknowledgement, never an error. -/
theorem update_num_requests_forwards_or_noop
    (a : Option RequestRateAutoscaler) (n : Int) :
    update_num_requests a (some n) =
      (Except.ok "Success",
       match a with
       | some _ => [Event.set_num_requests n]
       | none => []) := by
  cases a <;> rfl

/-- Claim C5: every `terminate` call stops the autoscaler (when present)
strictly before invoking the fleet store's drain, and returns the drain's
status message as the response, whatever the request body. -/
theorem terminate_stops_autoscaler_then_drains
    (a : Option RequestRateAutoscaler) (req drain_msg : String) :
    terminate a req drain_msg =
      (drain_msg,
       (match a with
        | some _ => [Event.autoscaler_terminate]
        | none => []) ++ [Event.infra_terminate]) := by
  cases a <;> rfl

/-- Claim C6: the terminate operation is idempotent on the controller
state: from the state reached by a first call, a second call returns the
same success message, leaves the state unchanged, and issues zero
deprovision actions (no replica is deprovisioned twice). -/
theorem terminate_state_idempotent (st : ControllerState) :
    terminate_state (terminate_state st).1 =
      ((terminate_state st).1, (terminate_state st).2.1, 0) := by
  obtain ⟨a, ⟨l⟩⟩ := st
  cases a <;>
    simp [terminate_state, FleetStore.terminateAll, AutoscalerLoop.stop,
      filter_ne_terminated_map_const, map_const_terminated_idem]

/-- Claim C7, counterexample: with autoscaling disabled the endpoint's
`query_interval` response field is JSON null (`None` in the source), not
the string `disabled`. -/
theorem get_autoscaler_query_interval_disabled_cex :
    get_autoscaler_query_interval none = JsonVal.null ∧
    JsonVal.null ≠ JsonVal.str "disabled" :=
  ⟨rfl, by simp⟩

/-- Claim C7, amended: `get_autoscaler_query_interval` responds with the
autoscaler's query interval in seconds when request-rate autoscaling is
enabled, and with JSON null (not the string `disabled`) when it is not. -/
theorem get_autoscaler_query_interval_cases
    (a : Option RequestRateAutoscaler) :
    get_autoscaler_query_interval a =
      (match a with
       | some x => JsonVal.num x.query_interval
       | none => JsonVal.null) := by
  cases a <;> rfl

/-- Claim C8: the `get_latest_info` response has exactly the fields
`replica_info`, `uptime` and `version`, in this order, and each holds the
transport encoding (base64 of the pickled bytes) of the value the
corresponding collaborator getter returned at call time: base64-decoding
and then unpickling each field recovers that value exactly. -/
theorem get_latest_info_encoded_snapshot (i : InfraSnapshot) :
    (get_latest_info i).map Prod.fst = ["replica_info", "uptime", "version"] ∧
    (get_latest_info i).map (fun kv => (b64decode kv.2).bind pickle_loads) =
      [some i.replica_info, some i.uptime, some i.version] := by
  refine ⟨rfl, ?_⟩
  simp [get_latest_info, b64_pickle_roundtrip]

/-- Claim C9, counterexample: two distinct service specifications produce
autoscalers with identical loop frequency (20), cooldown (60) and query
interval (60): these values are hardcoded constants of the startup
wiring, not determined by the supplied specification input. -/
theorem autoscaler_cadence_hardcoded_cex :
    sampleSpec ≠ sampleSpecB ∧
    (mkRequestRateAutoscaler sampleSpec).frequency = 20 ∧
    (mkRequestRateAutoscaler sampleSpecB).frequency = 20 ∧
    (mkRequestRateAutoscaler sampleSpec).cooldown = 60 ∧
    (mkRequestRateAutoscaler sampleSpecB).cooldown = 60 ∧
    (mkRequestRateAutoscaler sampleSpec).query_interval = 60 ∧
    (mkRequestRateAutoscaler sampleSpecB).query_interval = 60 := by
  refine ⟨?_, rfl, rfl, rfl, rfl, rfl, rfl⟩
  simp [sampleSpec, sampleSpecB]

/-- Claim C9, amended: at startup the autoscaler's replica bounds, QPS
thresholds and auto-restart flag are taken from the service
specification, but its loop frequency, scale cooldown and query interval
are the hardcoded constants 20, 60 and 60 — identical for every
specification. -/
theorem autoscaler_wiring_fields (s t : ServiceSpec) :
    (mkRequestRateAutoscaler s).frequency = (mkRequestRateAutoscaler t).frequency ∧
    (mkRequestRateAutoscaler s).cooldown = (mkRequestRateAutoscaler t).cooldown ∧
    (mkRequestRateAutoscaler s).query_interval =
      (mkRequestRateAutoscaler t).query_interval ∧
    (mkRequestRateAutoscaler s).frequency = 20 ∧
    (mkRequestRateAutoscaler s).cooldown = 60 ∧
    (mkRequestRateAutoscaler s).query_interval = 60 ∧
    (mkRequestRateAutoscaler s).auto_restart = s.auto_restart ∧
    (mkRequestRateAutoscaler s).min_nodes = s.min_replicas ∧
    (mkRequestRateAutoscaler s).max_nodes = s.max_replicas ∧
    (mkRequestRateAutoscaler s).upper_threshold = s.qps_upper_threshold ∧
    (mkRequestRateAutoscaler s).lower_threshold = s.qps_lower_threshold :=
  ⟨rfl, rfl, rfl, rfl, rfl, rfl, rfl, rfl, rfl, rfl, rfl⟩

/-- Claim C10: the terminate endpoint discards the request body unread:
for any two request bodies and the same controller configuration and
drain result, the response and the collaborator calls are identical. -/
theorem terminate_independent_of_request
    (a : Option RequestRateAutoscaler) (r1 r2 drain_msg : String) :
    terminate a r1 drain_msg = terminate a r2 drain_msg :=
  rfl
